import Mathlib

/-!
Verification of the Chatterbox messaging API (Flask server in
`server/app.py` and `server/models.py`).

The server is a CRUD service over a single `messages` table.  We embed it
shallowly:

* a `Msg` record mirrors the `Message` model (`models.py`): integer id,
  string body and username, and two timestamps;
* timestamps are drawn from a discrete monotone clock carried in the store
  state (`DB.clock`); each HTTP request observes a single clock value, so
  the two column defaults `created_at` and `updated_at` (both
  `datetime.now(timezone.utc)` at insert time) read the same instant;
* JSON payloads become `Option` records: `none` models `request.get_json()`
  returning `None`, and each field is `Option String` with `none` for an
  absent key;
* each route handler becomes a pure function `DB → ... → Resp × DB`.
  The uncaught `TypeError` raised by `'body' in data` when `data` is `None`
  in the PATCH handler is modelled by the distinct outcome `Resp.crash`
  (Flask converts an unhandled exception into a 500 response).
-/

/-- Claim-free mirror of the `Message` model in `server/models.py`:
id (integer primary key), body and username (non-null strings),
created_at and updated_at timestamps. -/
structure Msg where
  id : Nat
  body : String
  username : String
  created_at : Nat
  updated_at : Nat
deriving Repr, DecidableEq

/-- JSON payload of POST /messages: an object with optional `body` and
`username` keys (`none` = key absent). -/
structure PostPayload where
  body : Option String
  username : Option String
deriving Repr, DecidableEq

/-- JSON payload of PATCH /messages/{id}: an object with an optional
`body` key (`none` = key absent). -/
structure PatchPayload where
  body : Option String
deriving Repr, DecidableEq

/-- HTTP responses the handlers in `server/app.py` can produce.
`crash` stands for an exception escaping the handler (Flask then answers
500 Internal Server Error). `serverError500` mirrors the
`except Exception` branches for unexpected datastore failures, which the
pure model never takes. -/
inductive Resp where
  | ok200 (msgs : List Msg)
  | created201 (m : Msg)
  | accepted202 (m : Msg)
  | noContent204
  | badRequest400 (errors : List String)
  | notFound404 (error : String)
  | serverError500 (errors : List String)
  | crash
deriving Repr, DecidableEq

/-- HTTP status code of a response. -/
def Resp.status : Resp → Nat
  | .ok200 _ => 200
  | .created201 _ => 201
  | .accepted202 _ => 202
  | .noContent204 => 204
  | .badRequest400 _ => 400
  | .notFound404 _ => 404
  | .serverError500 _ => 500
  | .crash => 500

/-- Store state: the `messages` table in insertion order (ids ascend),
the next auto-increment id, and the current UTC clock. -/
structure DB where
  msgs : List Msg
  nextId : Nat
  clock : Nat
deriving Repr, DecidableEq

/-- Empty store at time 0; SQLite assigns ids from 1. -/
def DB.init : DB := ⟨[], 1, 0⟩

/-- GET /messages: `Message.query.order_by(Message.created_at).all()`.
The query sorts the stored rows by `created_at`; `mergeSort` is stable, so
rows with equal `created_at` keep their table (insertion) order. -/
def orderByCreated (l : List Msg) : List Msg :=
  l.mergeSort (fun a b => a.created_at ≤ b.created_at)

/-- GET /messages handler: 200 with every record ordered by created_at. -/
def getMessages (db : DB) : Resp × DB :=
  (.ok200 (orderByCreated db.msgs), db)

/-- POST /messages handler (`messages` in `server/app.py`):
reject 400 if the payload is missing or lacks `body` or `username`;
`Message(body=..., username=...)` runs `validate_body`, which raises
`ValueError` on an empty body (caught as 400); otherwise insert with both
timestamp defaults evaluated now, commit, and answer 201. -/
def postMessage (db : DB) (data : Option PostPayload) : Resp × DB :=
  match data with
  | none => (.badRequest400 ["Missing body or username in request data."], db)
  | some d =>
    match d.body, d.username with
    | some b, some u =>
      if b = "" then
        (.badRequest400 ["Message body cannot be empty."], db)
      else
        let m : Msg := ⟨db.nextId, b, u, db.clock, db.clock⟩
        (.created201 m, ⟨db.msgs ++ [m], db.nextId + 1, db.clock⟩)
    | _, _ => (.badRequest400 ["Missing body or username in request data."], db)

/-- PATCH /messages/{id} handler (`message_by_id` in `server/app.py`):
404 first when `db.session.get(Message, id)` finds nothing; only then
`data = request.get_json()` is consulted.  `'body' in data` raises
`TypeError` when `data` is `None` (modelled as `crash`); a present empty
body makes `validate_body` raise `ValueError`, caught as 400 before any
attribute is assigned; otherwise the row with this primary key gets the
new body, `onupdate` refreshes `updated_at`, and the answer is 202. -/
def patchMessage (db : DB) (i : Nat) (data : Option PatchPayload) : Resp × DB :=
  match db.msgs.find? (fun m => m.id == i) with
  | none => (.notFound404 "Message not found", db)
  | some msg =>
    match data with
    | none => (.crash, db)
    | some d =>
      match d.body with
      | none => (.badRequest400 ["Missing body in update request."], db)
      | some b =>
        if b = "" then
          (.badRequest400 ["Message body cannot be empty."], db)
        else
          (.accepted202 { msg with body := b, updated_at := db.clock },
           { db with
              msgs := db.msgs.map (fun m =>
                if m.id == i then { m with body := b, updated_at := db.clock }
                else m) })

/-- DELETE /messages/{id} handler (`message_by_id` in `server/app.py`):
404 when the id is absent, otherwise remove the row and answer 204 with an
empty body. -/
def deleteMessage (db : DB) (i : Nat) : Resp × DB :=
  match db.msgs.find? (fun m => m.id == i) with
  | none => (.notFound404 "Message not found", db)
  | some _ =>
    (.noContent204, { db with msgs := db.msgs.filter (fun m => m.id != i) })

/-- One client request: each carries the time elapsed since the previous
request (`d`), so the clock never runs backwards. -/
inductive Op where
  | listAll (d : Nat)
  | post (d : Nat) (data : Option PostPayload)
  | patch (d : Nat) (i : Nat) (data : Option PatchPayload)
  | del (d : Nat) (i : Nat)
deriving Repr, DecidableEq

/-- Advance the clock by `d` time units. -/
def DB.tick (db : DB) (d : Nat) : DB := { db with clock := db.clock + d }

/-- Dispatch one request against the store. -/
def step (db : DB) (op : Op) : Resp × DB :=
  match op with
  | .listAll d => getMessages (db.tick d)
  | .post d data => postMessage (db.tick d) data
  | .patch d i data => patchMessage (db.tick d) i data
  | .del d i => deleteMessage (db.tick d) i

/-- Run a sequence of requests from a starting state. -/
def run (db : DB) (ops : List Op) : DB :=
  ops.foldl (fun s op => (step s op).2) db

/-- Well-formedness of a store state: rows are in insertion order (ids
strictly ascend, created_at never decreases), every row was created no
later than it was updated, no timestamp is in the future, and every id is
below the auto-increment counter. -/
def WF (db : DB) : Prop :=
  db.msgs.Pairwise (fun a b => a.id < b.id ∧ a.created_at ≤ b.created_at) ∧
  ∀ m ∈ db.msgs, m.created_at ≤ m.updated_at ∧ m.updated_at ≤ db.clock ∧
    m.id < db.nextId

instance (db : DB) : Decidable (WF db) := by
  unfold WF; infer_instance

example : WF DB.init := by decide

example :
    (postMessage DB.init (some ⟨some "hi", some "alice"⟩)).1 =
      .created201 ⟨1, "hi", "alice", 0, 0⟩ := by decide

example :
    (patchMessage ⟨[⟨1, "hi", "alice", 0, 0⟩], 2, 5⟩ 1 none).1 = .crash := by
  decide

/-- Ticking the clock preserves well-formedness: all timestamps stay in
the past. -/
theorem WF.tick {db : DB} (d : Nat) (h : WF db) : WF (db.tick d) := by
  obtain ⟨hp, hm⟩ := h
  refine ⟨hp, fun m hmem => ?_⟩
  obtain ⟨h1, h2, h3⟩ := hm m hmem
  exact ⟨h1, le_trans h2 (Nat.le_add_right _ _), h3⟩

/-- POST preserves well-formedness: the new row takes the fresh id and the
current clock for both timestamps, and is appended after all older rows. -/
theorem WF.post {db : DB} (data : Option PostPayload) (h : WF db) :
    WF (postMessage db data).2 := by
  obtain ⟨hp, hm⟩ := h
  cases data with
  | none => exact ⟨hp, hm⟩
  | some d =>
    obtain ⟨bo, us⟩ := d
    cases bo with
    | none => exact ⟨hp, hm⟩
    | some b =>
      cases us with
      | none => exact ⟨hp, hm⟩
      | some u =>
        by_cases hb : b = ""
        · simp only [postMessage, hb, if_pos rfl]
          exact ⟨hp, hm⟩
        · simp only [postMessage, if_neg hb]
          constructor
          · rw [List.pairwise_append]
            refine ⟨hp, List.pairwise_singleton _ _, ?_⟩
            intro a ha m hmzz
            rw [List.mem_singleton] at hmzz
            subst hmzz
            obtain ⟨h1, h2, h3⟩ := hm a ha
            exact ⟨h3, le_trans h1 h2⟩
          · intro m hmem
            rw [List.mem_append, List.mem_singleton] at hmem
            cases hmem with
            | inl hin =>
              obtain ⟨h1, h2, h3⟩ := hm m hin
              exact ⟨h1, h2, Nat.lt_succ_of_lt h3⟩
            | inr heq =>
              subst heq
              exact ⟨le_refl _, le_refl _, Nat.lt_succ_self _⟩

/-- PATCH preserves well-formedness: a successful update keeps every id
and created_at, and stamps updated_at with the current clock. -/
theorem WF.patch {db : DB} (i : Nat) (data : Option PatchPayload)
    (h : WF db) : WF (patchMessage db i data).2 := by
  obtain ⟨hp, hm⟩ := h
  unfold patchMessage
  cases hfind : db.msgs.find? (fun m => m.id == i) with
  | none => exact ⟨hp, hm⟩
  | some msg =>
    cases data with
    | none => exact ⟨hp, hm⟩
    | some d =>
      obtain ⟨bo⟩ := d
      cases bo with
      | none => exact ⟨hp, hm⟩
      | some b =>
        by_cases hb : b = ""
        · simp only [hb, if_pos rfl]
          exact ⟨hp, hm⟩
        · simp only [if_neg hb]
          constructor
          · rw [List.pairwise_map]
            refine hp.imp ?_
            intro a c hac
            by_cases ha : a.id == i <;> by_cases hc : c.id == i <;>
              simp only [ha, hc, if_pos, if_neg, if_true, if_false] <;>
              exact hac
          · intro m hmem
            rw [List.mem_map] at hmem
            obtain ⟨a, hamem, rfl⟩ := hmem
            obtain ⟨h1, h2, h3⟩ := hm a hamem
            by_cases ha : a.id == i
            · simp only [ha, if_true]
              exact ⟨le_trans h1 h2, le_refl _, h3⟩
            · simp only [ha, if_false]
              exact ⟨h1, h2, h3⟩

/-- DELETE preserves well-formedness: the surviving rows are a sublist of
the old ones. -/
theorem WF.del {db : DB} (i : Nat) (h : WF db) :
    WF (deleteMessage db i).2 := by
  obtain ⟨hp, hm⟩ := h
  unfold deleteMessage
  cases hfind : db.msgs.find? (fun m => m.id == i) with
  | none => exact ⟨hp, hm⟩
  | some msg =>
    refine ⟨hp.sublist db.msgs.filter_sublist, ?_⟩
    intro m hmem
    exact hm m (List.mem_of_mem_filter hmem)

/-- Every request handler preserves well-formedness. -/
theorem WF.step {db : DB} (op : Op) (h : WF db) : WF (step db op).2 := by
  cases op with
  | listAll d => exact h.tick d
  | post d data => exact (h.tick d).post data
  | patch d i data => exact (h.tick d).patch i data
  | del d i => exact (h.tick d).del i

/-- Any run from a well-formed state stays well-formed. -/
theorem WF.runs {db : DB} (ops : List Op) (h : WF db) : WF (run db ops) := by
  induction ops generalizing db with
  | nil => exact h
  | cons op ops ih => exact ih (h.step op)

/-- The initial empty store is well-formed. -/
theorem WF.init : WF DB.init := by decide

/-- Every state reachable from the empty store is well-formed. -/
theorem WF.reachable (ops : List Op) : WF (run DB.init ops) :=
  WF.runs ops WF.init

/-- Claim C1: every successful POST /messages with valid (body, username)
answers 201 and the created record, appended to the store, has
created_at equal to updated_at. -/
theorem c1_post_created_timestamps_equal (db : DB) (b u : String)
    (h : b ≠ "") :
    ((postMessage db (some ⟨some b, some u⟩)).1).status = 201 ∧
    ∃ m, (postMessage db (some ⟨some b, some u⟩)).1 = .created201 m ∧
      m.created_at = m.updated_at ∧
      (postMessage db (some ⟨some b, some u⟩)).2.msgs = db.msgs ++ [m] := by
  simp only [postMessage, if_neg h]
  exact ⟨rfl, ⟨db.nextId, b, u, db.clock, db.clock⟩, rfl, rfl, rfl⟩

/-- Witness for C1 at a concrete valid creation request. -/
theorem c1_witness :
    ((postMessage DB.init (some ⟨some "hi", some "alice"⟩)).1).status = 201 ∧
    ∃ m, (postMessage DB.init (some ⟨some "hi", some "alice"⟩)).1 =
        .created201 m ∧
      m.created_at = m.updated_at ∧
      (postMessage DB.init (some ⟨some "hi", some "alice"⟩)).2.msgs =
        DB.init.msgs ++ [m] :=
  c1_post_created_timestamps_equal DB.init "hi" "alice" (by decide)

/-- Claim C4: POST /messages with a missing payload, a missing body key,
a missing username key, or an empty-string body answers 400 and leaves
the store untouched. -/
theorem c4_post_invalid_rejected (db : DB) (data : Option PostPayload)
    (h : data = none ∨ ∃ d, data = some d ∧
      (d.body = none ∨ d.username = none ∨ d.body = some "")) :
    ((postMessage db data).1).status = 400 ∧ (postMessage db data).2 = db := by
  rcases h with rfl | ⟨d, rfl, hd⟩
  · exact ⟨rfl, rfl⟩
  · obtain ⟨bo, us⟩ := d
    cases bo <;> cases us <;> simp_all [postMessage, Resp.status]

/-- Witness for C4 at a concrete empty-body creation request. -/
theorem c4_witness :
    ((postMessage DB.init (some ⟨some "", some "alice"⟩)).1).status = 400 ∧
    (postMessage DB.init (some ⟨some "", some "alice"⟩)).2 = DB.init :=
  c4_post_invalid_rejected DB.init (some ⟨some "", some "alice"⟩)
    (Or.inr ⟨⟨some "", some "alice"⟩, rfl, Or.inr (Or.inr rfl)⟩)

/-- Claim C10: POST /messages with an empty-string username and a valid
non-empty body answers 201 and persists a record whose username is the
empty string: only absence of the username key is rejected. -/
theorem c10_post_empty_username_accepted (db : DB) (b : String)
    (h : b ≠ "") :
    ((postMessage db (some ⟨some b, some ""⟩)).1).status = 201 ∧
    (postMessage db (some ⟨some b, some ""⟩)).2.msgs =
      db.msgs ++ [⟨db.nextId, b, "", db.clock, db.clock⟩] := by
  simp only [postMessage, if_neg h]
  exact ⟨rfl, trivial⟩

/-- Witness for C10 at a concrete request with empty username. -/
theorem c10_witness :
    ((postMessage DB.init (some ⟨some "hi", some ""⟩)).1).status = 201 ∧
    (postMessage DB.init (some ⟨some "hi", some ""⟩)).2.msgs =
      DB.init.msgs ++ [⟨DB.init.nextId, "hi", "", DB.init.clock,
        DB.init.clock⟩] :=
  c10_post_empty_username_accepted DB.init "hi" (by decide)

/-- Claim C3: PATCH /messages/{id} answers 404 on a non-existent id for
every payload, absent payloads included: the not-found check runs before
the payload is consulted, and the store is untouched. -/
theorem c3_patch_missing_id_404 (db : DB) (i : Nat)
    (data : Option PatchPayload)
    (h : db.msgs.find? (fun m => m.id == i) = none) :
    patchMessage db i data = (.notFound404 "Message not found", db) ∧
    ((patchMessage db i data).1).status = 404 := by
  simp only [patchMessage, h]
  exact ⟨trivial, rfl⟩

/-- Witness for C3 at the empty store with an absent payload. -/
theorem c3_witness :
    patchMessage DB.init 1 none = (.notFound404 "Message not found", DB.init) ∧
    ((patchMessage DB.init 1 none).1).status = 404 :=
  c3_patch_missing_id_404 DB.init 1 none rfl

/-- Counterexample to claim C2 as stated: on an existing id with an
absent (None) JSON payload, the PATCH handler evaluates
`'body' in data` with `data = None`, which raises an uncaught TypeError;
the response is Flask's 500, not the claimed 400. -/
theorem c2_counterexample :
    (patchMessage ⟨[⟨1, "hi", "alice", 0, 0⟩], 2, 5⟩ 1 none).1 = .crash ∧
    ((patchMessage ⟨[⟨1, "hi", "alice", 0, 0⟩], 2, 5⟩ 1 none).1).status ≠ 400 := by
  decide

/-- Claim C2 amended: on an existing id, a JSON-object payload lacking a
body key answers 400 with no mutation; an absent (None) payload instead
raises an uncaught error (answered as 500), also with no mutation. -/
theorem c2_amended_patch_missing_body (db : DB) (i : Nat) (msg : Msg)
    (hfind : db.msgs.find? (fun m => m.id == i) = some msg) :
    (∀ d : PatchPayload, d.body = none →
      patchMessage db i (some d) =
        (.badRequest400 ["Missing body in update request."], db)) ∧
    patchMessage db i none = (.crash, db) := by
  constructor
  · intro d hd
    simp only [patchMessage, hfind, hd]
  · simp only [patchMessage, hfind]

/-- Witness for the amended C2 at a concrete one-row store. -/
theorem c2_witness :
    (∀ d : PatchPayload, d.body = none →
      patchMessage ⟨[⟨1, "hi", "alice", 0, 0⟩], 2, 5⟩ 1 (some d) =
        (.badRequest400 ["Missing body in update request."],
         ⟨[⟨1, "hi", "alice", 0, 0⟩], 2, 5⟩)) ∧
    patchMessage ⟨[⟨1, "hi", "alice", 0, 0⟩], 2, 5⟩ 1 none =
      (.crash, ⟨[⟨1, "hi", "alice", 0, 0⟩], 2, 5⟩) :=
  c2_amended_patch_missing_body ⟨[⟨1, "hi", "alice", 0, 0⟩], 2, 5⟩ 1
    ⟨1, "hi", "alice", 0, 0⟩ rfl

/-- Claim C9: PATCH /messages/{id} on an existing id with an
empty-string body answers 400 (the model validator raises before any
assignment) and the store, the row included, is entirely unchanged. -/
theorem c9_patch_empty_body_unchanged (db : DB) (i : Nat) (msg : Msg)
    (hfind : db.msgs.find? (fun m => m.id == i) = some msg) :
    patchMessage db i (some ⟨some ""⟩) =
      (.badRequest400 ["Message body cannot be empty."], db) ∧
    ((patchMessage db i (some ⟨some ""⟩)).1).status = 400 := by
  simp only [patchMessage, hfind, if_pos rfl]
  exact ⟨rfl, rfl⟩

/-- Witness for C9 at a concrete one-row store. -/
theorem c9_witness :
    patchMessage ⟨[⟨1, "hi", "alice", 0, 0⟩], 2, 5⟩ 1 (some ⟨some ""⟩) =
      (.badRequest400 ["Message body cannot be empty."],
       ⟨[⟨1, "hi", "alice", 0, 0⟩], 2, 5⟩) ∧
    ((patchMessage ⟨[⟨1, "hi", "alice", 0, 0⟩], 2, 5⟩ 1
        (some ⟨some ""⟩)).1).status = 400 :=
  c9_patch_empty_body_unchanged ⟨[⟨1, "hi", "alice", 0, 0⟩], 2, 5⟩ 1
    ⟨1, "hi", "alice", 0, 0⟩ rfl

/-- Claim C5: a successful PATCH /messages/{id} with a non-empty new body
answers 202 with the updated record, which is stored, carries the new
body, keeps its id, username and created_at, and has updated_at at least
the prior updated_at (the clock never runs backwards on a well-formed
store). -/
theorem c5_patch_success_frame (db : DB) (i : Nat) (b : String) (msg : Msg)
    (hWF : WF db) (hfind : db.msgs.find? (fun m => m.id == i) = some msg)
    (hb : b ≠ "") :
    ∃ m2,
      (patchMessage db i (some ⟨some b⟩)).1 = .accepted202 m2 ∧
      ((patchMessage db i (some ⟨some b⟩)).1).status = 202 ∧
      m2 ∈ (patchMessage db i (some ⟨some b⟩)).2.msgs ∧
      m2.body = b ∧ m2.id = msg.id ∧ m2.username = msg.username ∧
      m2.created_at = msg.created_at ∧ msg.updated_at ≤ m2.updated_at := by
  have hmem : msg ∈ db.msgs := List.mem_of_find?_eq_some hfind
  have hpred : (msg.id == i) = true := by
    simpa using List.find?_some hfind
  have hclock : msg.updated_at ≤ db.clock := (hWF.2 msg hmem).2.1
  refine ⟨{ msg with body := b, updated_at := db.clock }, ?_, ?_, ?_,
    rfl, rfl, rfl, rfl, hclock⟩
  · simp only [patchMessage, hfind, if_neg hb]
  · simp only [patchMessage, hfind, if_neg hb]
    rfl
  · simp only [patchMessage, hfind, if_neg hb]
    have hmap := List.mem_map_of_mem
      (fun m => if m.id == i then { m with body := b, updated_at := db.clock }
        else m) hmem
    simpa [hpred] using hmap

/-- Witness for C5 at a concrete one-row store. -/
theorem c5_witness :
    ∃ m2,
      (patchMessage ⟨[⟨1, "hi", "alice", 0, 0⟩], 2, 5⟩ 1
        (some ⟨some "hello"⟩)).1 = .accepted202 m2 ∧
      ((patchMessage ⟨[⟨1, "hi", "alice", 0, 0⟩], 2, 5⟩ 1
        (some ⟨some "hello"⟩)).1).status = 202 ∧
      m2 ∈ (patchMessage ⟨[⟨1, "hi", "alice", 0, 0⟩], 2, 5⟩ 1
        (some ⟨some "hello"⟩)).2.msgs ∧
      m2.body = "hello" ∧ m2.id = (Msg.mk 1 "hi" "alice" 0 0).id ∧
      m2.username = (Msg.mk 1 "hi" "alice" 0 0).username ∧
      m2.created_at = (Msg.mk 1 "hi" "alice" 0 0).created_at ∧
      (Msg.mk 1 "hi" "alice" 0 0).updated_at ≤ m2.updated_at :=
  c5_patch_success_frame ⟨[⟨1, "hi", "alice", 0, 0⟩], 2, 5⟩ 1 "hello"
    ⟨1, "hi", "alice", 0, 0⟩ (by decide) rfl (by decide)

/-- DELETE on an id absent from the store answers 404 and changes
nothing. -/
theorem deleteMessage_notFound (db : DB) (i : Nat)
    (h : db.msgs.find? (fun m => m.id == i) = none) :
    deleteMessage db i = (.notFound404 "Message not found", db) := by
  simp only [deleteMessage, h]

/-- Claim C6: DELETE /messages/{id} on an existing id answers 204 with an
empty body and removes the record: no surviving row carries that id, a
subsequent GET /messages lists no row with that id, and a subsequent
DELETE of the same id answers 404. -/
theorem c6_del_existing (db : DB) (i : Nat) (msg : Msg)
    (hfind : db.msgs.find? (fun m => m.id == i) = some msg) :
    (deleteMessage db i).1 = .noContent204 ∧
    ((deleteMessage db i).1).status = 204 ∧
    (∀ m ∈ (deleteMessage db i).2.msgs, m.id ≠ i) ∧
    (∀ m ∈ orderByCreated (deleteMessage db i).2.msgs, m.id ≠ i) ∧
    deleteMessage (deleteMessage db i).2 i =
      (.notFound404 "Message not found", (deleteMessage db i).2) := by
  have h2 : (deleteMessage db i).2.msgs = db.msgs.filter (fun m => m.id != i) := by
    simp only [deleteMessage, hfind]
  have hmem : ∀ m ∈ (deleteMessage db i).2.msgs, m.id ≠ i := by
    rw [h2]
    intro m hm
    simpa using List.of_mem_filter hm
  have hfind2 : (deleteMessage db i).2.msgs.find? (fun m => m.id == i) = none := by
    rw [List.find?_eq_none]
    intro m hm
    simpa using hmem m hm
  refine ⟨?_, ?_, hmem, ?_, ?_⟩
  · simp only [deleteMessage, hfind]
  · simp only [deleteMessage, hfind]
    rfl
  · intro m hm
    refine hmem m ?_
    have hperm := List.mergeSort_perm (deleteMessage db i).2.msgs
      (fun a b => a.created_at ≤ b.created_at)
    exact hperm.mem_iff.mp hm
  · exact deleteMessage_notFound _ i hfind2

/-- Witness for C6 at a concrete one-row store. -/
theorem c6_witness :
    (deleteMessage ⟨[⟨1, "hi", "alice", 0, 0⟩], 2, 5⟩ 1).1 = .noContent204 ∧
    ((deleteMessage ⟨[⟨1, "hi", "alice", 0, 0⟩], 2, 5⟩ 1).1).status = 204 ∧
    (∀ m ∈ (deleteMessage ⟨[⟨1, "hi", "alice", 0, 0⟩], 2, 5⟩ 1).2.msgs,
      m.id ≠ 1) ∧
    (∀ m ∈ orderByCreated
        (deleteMessage ⟨[⟨1, "hi", "alice", 0, 0⟩], 2, 5⟩ 1).2.msgs,
      m.id ≠ 1) ∧
    deleteMessage (deleteMessage ⟨[⟨1, "hi", "alice", 0, 0⟩], 2, 5⟩ 1).2 1 =
      (.notFound404 "Message not found",
       (deleteMessage ⟨[⟨1, "hi", "alice", 0, 0⟩], 2, 5⟩ 1).2) :=
  c6_del_existing ⟨[⟨1, "hi", "alice", 0, 0⟩], 2, 5⟩ 1
    ⟨1, "hi", "alice", 0, 0⟩ rfl

/-- Claim C7: on every reachable store, GET /messages answers 200 with
exactly the stored records, which are ordered by created_at ascending
with ties broken by id ascending (their insertion order), and an empty
store yields an empty array. -/
theorem c7_get_sorted (ops : List Op) :
    (getMessages (run DB.init ops)).1 = .ok200 ((run DB.init ops).msgs) ∧
    ((getMessages (run DB.init ops)).1).status = 200 ∧
    (run DB.init ops).msgs.Pairwise
      (fun a b => a.created_at < b.created_at ∨
        (a.created_at = b.created_at ∧ a.id < b.id)) ∧
    ((run DB.init ops).msgs = [] →
      (getMessages (run DB.init ops)).1 = .ok200 []) := by
  have hWF := WF.reachable ops
  have hsorted : (run DB.init ops).msgs.Pairwise
      (fun a b => a.created_at ≤ b.created_at) :=
    hWF.1.imp (fun h => h.2)
  have heq : orderByCreated (run DB.init ops).msgs = (run DB.init ops).msgs := by
    apply List.mergeSort_of_sorted
    simpa using hsorted
  refine ⟨?_, rfl, ?_, ?_⟩
  · simp only [getMessages, heq]
  · refine hWF.1.imp ?_
    intro a c hac
    rcases lt_or_eq_of_le hac.2 with hlt | hceq
    · exact Or.inl hlt
    · exact Or.inr ⟨hceq, hac.1⟩
  · intro hnil
    have h1 : (getMessages (run DB.init ops)).1 =
        .ok200 ((run DB.init ops).msgs) := by
      simp only [getMessages, heq]
    rw [h1, hnil]

/-- Witness for C7 at the empty run. -/
theorem c7_witness :
    (getMessages (run DB.init [])).1 = .ok200 ((run DB.init []).msgs) ∧
    ((getMessages (run DB.init [])).1).status = 200 ∧
    (run DB.init []).msgs.Pairwise
      (fun a b => a.created_at < b.created_at ∨
        (a.created_at = b.created_at ∧ a.id < b.id)) ∧
    ((run DB.init []).msgs = [] →
      (getMessages (run DB.init [])).1 = .ok200 []) :=
  c7_get_sorted []

/-- Claim C8: after any sequence of create, update and delete requests
from the empty store, every persisted record satisfies
updated_at ≥ created_at. -/
theorem c8_updated_ge_created (ops : List Op) (m : Msg)
    (hm : m ∈ (run DB.init ops).msgs) : m.created_at ≤ m.updated_at :=
  ((WF.reachable ops).2 m hm).1

/-- Witness for C8 after one concrete creation request. -/
theorem c8_witness :
    (Msg.mk 1 "hi" "alice" 1 1).created_at ≤
      (Msg.mk 1 "hi" "alice" 1 1).updated_at :=
  c8_updated_ge_created [.post 1 (some ⟨some "hi", some "alice"⟩)]
    ⟨1, "hi", "alice", 1, 1⟩ (by decide)
